import Mathlib

/-!
Verification of the Schedule Planner core of `streamlit_app.py`.

The Python source computes over IEEE floats; we embed the arithmetic over
the rationals `ℚ` (exact real-valued arithmetic, the idealisation the spec
itself uses).  Python strings are embedded as `List Char`.  A Python
function that can raise (division by zero in `travel_time_minutes`,
`ValueError` in `hhmm_to_minutes`) is embedded as an `Option`-valued
function, with `none` exactly on the raising inputs.
-/

namespace RailApp

/-! ## Time utilities (`hhmm_to_minutes`, `minutes_to_hhmm`) -/

/-- Python `str.split(":")`, on the character-list view of a string:
`"ab:cd"` ↦ `["ab", "cd"]`, `""` ↦ `[""]`, `":"` ↦ `["", ""]`. -/
def splitOnColon : List Char → List (List Char)
  | [] => [[]]
  | c :: rest =>
    if c = ':' then [] :: splitOnColon rest
    else
      match splitOnColon rest with
      | [] => [[c]]
      | p :: ps => (c :: p) :: ps

/-- Characters Python's `int(str)` strips from both ends. -/
def isPyWhitespace (c : Char) : Bool :=
  c = ' ' || c = '\t' || c = '\n' || c = '\x0d' || c = '\x0b' || c = '\x0c'

/-- Digit value of an ASCII decimal digit. -/
def digitVal (c : Char) : Nat := c.toNat - 48

/-- Accumulating parse of a Python `digitpart`: decimal digits with single
underscores allowed between digits (`int("1_0")` is legal Python). -/
def pyDigitsAux : Nat → List Char → Option Nat
  | acc, [] => some acc
  | acc, '_' :: c :: rest =>
    if c.isDigit then pyDigitsAux (acc * 10 + digitVal c) rest else none
  | acc, c :: rest =>
    if c.isDigit then pyDigitsAux (acc * 10 + digitVal c) rest else none

/-- Parse of a nonempty unsigned decimal literal. -/
def pyDigits : List Char → Option Nat
  | [] => none
  | c :: rest => if c.isDigit then pyDigitsAux (digitVal c) rest else none

/-- Optional sign in front of a Python integer literal. -/
def pySigned : List Char → Option Int
  | '+' :: rest => (pyDigits rest).map Int.ofNat
  | '-' :: rest => (pyDigits rest).map (fun n => -(Int.ofNat n))
  | s => (pyDigits s).map Int.ofNat

/-- Python's `int(str)` on decimal input: strip surrounding whitespace,
optional sign, nonempty digit run; `none` when `int` raises `ValueError`. -/
def pyInt (s : List Char) : Option Int :=
  pySigned ((s.dropWhile isPyWhitespace).reverse.dropWhile isPyWhitespace).reverse

/-- Model of `hhmm_to_minutes` from the source: split on `":"`, convert both parts
with `int`, return `h * 60 + m`; `none` exactly when Python raises. -/
def hhmm_to_minutes (s : List Char) : Option Int :=
  match splitOnColon s with
  | [a, b] =>
    match pyInt a, pyInt b with
    | some h, some m => some (h * 60 + m)
    | _, _ => none
  | _ => none

/-- Python's builtin `round` to an integer: round-half-to-even. -/
def pyRound (q : ℚ) : ℤ :=
  let f := ⌊q⌋
  if q - f < 1/2 then f
  else if 1/2 < q - f then f + 1
  else if Even f then f else f + 1

/-- Decimal digit character. -/
def digitChar (d : Nat) : Char := Char.ofNat (48 + d)

/-- Decimal digits, most significant first, structurally recursive on a
fuel argument (`fuel ≥ n` always suffices, since `n / 10 < n` for `n ≥ 10`). -/
def natDigitsAux : Nat → Nat → List Char
  | 0, n => [digitChar n]
  | fuel + 1, n =>
    if n < 10 then [digitChar n]
    else natDigitsAux fuel (n / 10) ++ [digitChar (n % 10)]

/-- Decimal digits of a natural number, most significant first. -/
def natDigits (n : Nat) : List Char := natDigitsAux n n

/-- Python `f"{n:02d}"` for a nonnegative value: pad to width two. -/
def fmt02d (n : Nat) : List Char :=
  let ds := natDigits n
  if ds.length < 2 then '0' :: ds else ds

/-- Model of `minutes_to_hhmm` from the source: `m = int(round(m))`,
`h = (m // 60) % 24`, `mm = m % 60`, rendered `f"{h:02d}:{mm:02d}"`.
Python `//` is floor division and `%` follows the (positive) divisor,
i.e. `Int.fdiv` / `Int.fmod`. -/
def minutes_to_hhmm (m : ℚ) : List Char :=
  let r := pyRound m
  let h := ((r.fdiv 60).fmod 24).toNat
  let mm := (r.fmod 60).toNat
  fmt02d h ++ ':' :: fmt02d mm

/-! ## Travel time and the schedule builder -/

/-- Model of `travel_time_minutes` from the source: `60.0 * distance_km / speed_kmph`;
Python raises `ZeroDivisionError` exactly when the speed is zero. -/
def travel_time_minutes (distance_km speed_kmph : ℚ) : Option ℚ :=
  if speed_kmph = 0 then none else some (60 * distance_km / speed_kmph)

/-- One candidate plan, the `dict` built in `build_schedule`. -/
structure Plan where
  name : String
  dep_exp : ℚ
  arr_exp : ℚ
  dep_fre : ℚ
  arr_fre : ℚ
  delay_exp : ℚ
  delay_fre : ℚ
  score : ℚ
deriving Repr, DecidableEq

/-- Line 72 of the source: `plan_A if plan_A["score"] <= plan_B["score"]
else plan_B`. -/
def selectBest (plan_A plan_B : Plan) : Plan :=
  if plan_A.score ≤ plan_B.score then plan_A else plan_B

/-- Model of `build_schedule` from the source, with the source's default weights.
Returns `(best, plan_A, plan_B, (t_exp_run, t_fre_run))`; `none` exactly
when a travel-time division raises. -/
def build_schedule (distance_km v_exp v_freight dep_exp_planned dep_freight_planned
    headway_min : ℚ) (w_exp : ℚ := 3) (w_freight : ℚ := 1) :
    Option (Plan × Plan × Plan × (ℚ × ℚ)) := do
  let t_exp_run ← travel_time_minutes distance_km v_exp
  let t_fre_run ← travel_time_minutes distance_km v_freight
  -- Option A: hold freight (express first)
  let dep_exp_A := dep_exp_planned
  let arr_exp_A := dep_exp_A + t_exp_run
  let dep_fre_A := max dep_freight_planned (arr_exp_A + headway_min)
  let arr_fre_A := dep_fre_A + t_fre_run
  let delay_exp_A := max 0 (dep_exp_A - dep_exp_planned)
  let delay_fre_A := max 0 (dep_fre_A - dep_freight_planned)
  let score_A := w_exp * delay_exp_A + w_freight * delay_fre_A
  let plan_A : Plan :=
    { name := "Option A – Hold Freight; Express first"
      dep_exp := dep_exp_A, arr_exp := arr_exp_A
      dep_fre := dep_fre_A, arr_fre := arr_fre_A
      delay_exp := delay_exp_A, delay_fre := delay_fre_A
      score := score_A }
  -- Option B: delay express (freight first)
  let dep_fre_B := dep_freight_planned
  let arr_fre_B := dep_fre_B + t_fre_run
  let dep_exp_B := max dep_exp_planned (arr_fre_B + headway_min)
  let arr_exp_B := dep_exp_B + t_exp_run
  let delay_exp_B := max 0 (dep_exp_B - dep_exp_planned)
  let delay_fre_B := max 0 (dep_fre_B - dep_freight_planned)
  let score_B := w_exp * delay_exp_B + w_freight * delay_fre_B
  let plan_B : Plan :=
    { name := "Option B – Delay Express; Freight first"
      dep_exp := dep_exp_B, arr_exp := arr_exp_B
      dep_fre := dep_fre_B, arr_fre := arr_fre_B
      delay_exp := delay_exp_B, delay_fre := delay_fre_B
      score := score_B }
  let best := selectBest plan_A plan_B
  return (best, plan_A, plan_B, (t_exp_run, t_fre_run))

/-! ## Closed forms of the two candidate plans (let-expansion of the source) -/

/-- Plan A of `build_schedule` (hold freight, express first), with every
`let` of the source expanded. -/
def planA_of (d ve vf pe pf hw we wf : ℚ) : Plan :=
  { name := "Option A – Hold Freight; Express first"
    dep_exp := pe
    arr_exp := pe + 60 * d / ve
    dep_fre := max pf (pe + 60 * d / ve + hw)
    arr_fre := max pf (pe + 60 * d / ve + hw) + 60 * d / vf
    delay_exp := max 0 (pe - pe)
    delay_fre := max 0 (max pf (pe + 60 * d / ve + hw) - pf)
    score := we * max 0 (pe - pe) + wf * max 0 (max pf (pe + 60 * d / ve + hw) - pf) }

/-- Plan B of `build_schedule` (delay express, freight first), with every
`let` of the source expanded. -/
def planB_of (d ve vf pe pf hw we wf : ℚ) : Plan :=
  { name := "Option B – Delay Express; Freight first"
    dep_exp := max pe (pf + 60 * d / vf + hw)
    arr_exp := max pe (pf + 60 * d / vf + hw) + 60 * d / ve
    dep_fre := pf
    arr_fre := pf + 60 * d / vf
    delay_exp := max 0 (max pe (pf + 60 * d / vf + hw) - pe)
    delay_fre := max 0 (pf - pf)
    score := we * max 0 (max pe (pf + 60 * d / vf + hw) - pe) + wf * max 0 (pf - pf) }

/-! ## Reference formulas, transcribed from the specification's words
(section 4.2 "Travel Time" and 4.3 "Candidate Plan Generator"), for the
refinement claim comparing the code to the spec. -/

/-- Spec 4.2: `travelTime(distanceKm, speedKmph)` returns `60 * distance / speed`. -/
def spec_travelTime (d v : ℚ) : ℚ := 60 * d / v

/-- Spec 4.3, Plan A (express precedence): `depExpA = plannedExp`,
`arrExpA = depExpA + travelTime(distance, vExp)`,
`depFreA = max(plannedFre, arrExpA + headway)`,
`arrFreA = depFreA + travelTime(distance, vFre)`,
`delayExpA = max(0, depExpA - plannedExp)`,
`delayFreA = max(0, depFreA - plannedFre)`,
score `wExp * delayExpA + wFre * delayFreA`.  (The name label is not
specified; the source's label is carried over unchanged.) -/
def spec_planA (d ve vf pe pf hw we wf : ℚ) : Plan :=
  { name := "Option A – Hold Freight; Express first"
    dep_exp := pe
    arr_exp := pe + spec_travelTime d ve
    dep_fre := max pf ((pe + spec_travelTime d ve) + hw)
    arr_fre := max pf ((pe + spec_travelTime d ve) + hw) + spec_travelTime d vf
    delay_exp := max 0 (pe - pe)
    delay_fre := max 0 (max pf ((pe + spec_travelTime d ve) + hw) - pf)
    score := we * max 0 (pe - pe) + wf * max 0 (max pf ((pe + spec_travelTime d ve) + hw) - pf) }

/-- Spec 4.3, Plan B (freight precedence): symmetric with roles swapped:
freight departs at its planned time, express is held until
`max(plannedExp, arrFreB + headway)`. -/
def spec_planB (d ve vf pe pf hw we wf : ℚ) : Plan :=
  { name := "Option B – Delay Express; Freight first"
    dep_exp := max pe ((pf + spec_travelTime d vf) + hw)
    arr_exp := max pe ((pf + spec_travelTime d vf) + hw) + spec_travelTime d ve
    dep_fre := pf
    arr_fre := pf + spec_travelTime d vf
    delay_exp := max 0 (max pe ((pf + spec_travelTime d vf) + hw) - pe)
    delay_fre := max 0 (pf - pf)
    score := we * max 0 (max pe ((pf + spec_travelTime d vf) + hw) - pe) + wf * max 0 (pf - pf) }

/-- Plan A computed on Scenario 1, with the exact rational values. -/
def scenario1A : Plan :=
  { name := "Option A – Hold Freight; Express first"
    dep_exp := 622, arr_exp := 7082/11, dep_fre := 7115/11, arr_fre := 7775/11
    delay_exp := 0, delay_fre := 515/11, score := 515/11 }

/-- Plan B computed on Scenario 1, with the exact rational values. -/
def scenario1B : Plan :=
  { name := "Option B – Delay Express; Freight first"
    dep_exp := 663, arr_exp := 7533/11, dep_fre := 600, arr_fre := 660
    delay_exp := 41, delay_fre := 0, score := 123 }

lemma build_schedule_some (d ve vf pe pf hw we wf : ℚ) (hve : ve ≠ 0) (hvf : vf ≠ 0) :
    build_schedule d ve vf pe pf hw we wf =
      some (selectBest (planA_of d ve vf pe pf hw we wf) (planB_of d ve vf pe pf hw we wf),
        planA_of d ve vf pe pf hw we wf, planB_of d ve vf pe pf hw we wf,
        (60 * d / ve, 60 * d / vf)) := by
  simp [build_schedule, travel_time_minutes, hve, hvf, planA_of, planB_of]

/-! ## Claims -/

/-- C1: for every valid input (distance > 0, both speeds > 0, headway ≥ 0,
weights > 0), `build_schedule` computes exactly the spec's reference
formulas: Plan A's express departs at its planned time (delay 0), arrives
at departure plus `travelTime(distance, vExp)`, and the freight departs at
`max(plannedFre, express arrival + headway)`; Plan B is the symmetric
computation; each delay is `max(0, actual - planned)` and each score is
`wExp * delayExp + wFre * delayFre`. -/
theorem claim_C1_generator_matches_spec (d ve vf pe pf hw we wf : ℚ)
    (hd : 0 < d) (hve : 0 < ve) (hvf : 0 < vf) (hhw : 0 ≤ hw)
    (hwe : 0 < we) (hwf : 0 < wf) :
    ∃ best A B te tf,
      build_schedule d ve vf pe pf hw we wf = some (best, A, B, (te, tf)) ∧
      te = spec_travelTime d ve ∧ tf = spec_travelTime d vf ∧
      A = spec_planA d ve vf pe pf hw we wf ∧
      B = spec_planB d ve vf pe pf hw we wf ∧
      A.delay_exp = 0 ∧ B.delay_fre = 0 := by
  refine ⟨_, _, _, _, _, build_schedule_some d ve vf pe pf hw we wf hve.ne' hvf.ne',
    ?_, ?_, ?_, ?_, ?_, ?_⟩ <;>
    simp [planA_of, planB_of, spec_planA, spec_planB, spec_travelTime]

/-- Witness for C1 at the concrete valid input of the spec's Scenario 1. -/
theorem claim_C1_witness :
    ∃ best A B te tf,
      build_schedule 40 110 40 622 600 3 3 1 = some (best, A, B, (te, tf)) ∧
      te = spec_travelTime 40 110 ∧ tf = spec_travelTime 40 40 ∧
      A = spec_planA 40 110 40 622 600 3 3 1 ∧
      B = spec_planB 40 110 40 622 600 3 3 1 ∧
      A.delay_exp = 0 ∧ B.delay_fre = 0 :=
  claim_C1_generator_matches_spec 40 110 40 622 600 3 3 1
    (by norm_num) (by norm_num) (by norm_num) (by norm_num) (by norm_num) (by norm_num)

/-- C2: the selector returns Plan A when its score is ≤ Plan B's score and
Plan B otherwise; on an exact tie it returns Plan A; the result is always
one of the two inputs. -/
theorem claim_C2_selector (pA pB : Plan) :
    (selectBest pA pB = pA ∨ selectBest pA pB = pB) ∧
    (pA.score ≤ pB.score → selectBest pA pB = pA) ∧
    (pB.score < pA.score → selectBest pA pB = pB) ∧
    (pA.score = pB.score → selectBest pA pB = pA) := by
  unfold selectBest
  by_cases h : pA.score ≤ pB.score
  · rw [if_pos h]
    exact ⟨Or.inl rfl, fun _ => rfl, fun h2 => absurd h (not_le.mpr h2), fun _ => rfl⟩
  · rw [if_neg h]
    exact ⟨Or.inr rfl, fun h2 => absurd h2 h, fun _ => rfl, fun h2 => absurd h2.le h⟩

/-- Witness for C2 on two concrete plans with scores 1 and 2. -/
theorem claim_C2_witness :
    selectBest
      { name := "x", dep_exp := 0, arr_exp := 0, dep_fre := 0, arr_fre := 0,
        delay_exp := 0, delay_fre := 0, score := 1 }
      { name := "y", dep_exp := 0, arr_exp := 0, dep_fre := 0, arr_fre := 0,
        delay_exp := 0, delay_fre := 0, score := 2 } =
      { name := "x", dep_exp := 0, arr_exp := 0, dep_fre := 0, arr_fre := 0,
        delay_exp := 0, delay_fre := 0, score := 1 } :=
  (claim_C2_selector _ _).2.1 (by norm_num)

/-- C3: for every valid input (including headway = 0), in each generated
plan the trailing train departs no earlier than the leading train's arrival
plus the headway, and the leading train's departure equals its planned
time (it is never pushed below it). -/
theorem claim_C3_headway (d ve vf pe pf hw we wf : ℚ)
    (hd : 0 < d) (hve : 0 < ve) (hvf : 0 < vf) (hhw : 0 ≤ hw)
    (hwe : 0 < we) (hwf : 0 < wf) :
    ∃ best A B te tf,
      build_schedule d ve vf pe pf hw we wf = some (best, A, B, (te, tf)) ∧
      A.arr_exp + hw ≤ A.dep_fre ∧ B.arr_fre + hw ≤ B.dep_exp ∧
      A.dep_exp = pe ∧ B.dep_fre = pf := by
  refine ⟨_, _, _, _, _, build_schedule_some d ve vf pe pf hw we wf hve.ne' hvf.ne',
    ?_, ?_, rfl, rfl⟩ <;> simp [planA_of, planB_of]

/-- Witness for C3 at a concrete valid input with headway 0. -/
theorem claim_C3_witness :
    ∃ best A B te tf,
      build_schedule 40 110 40 622 600 0 3 1 = some (best, A, B, (te, tf)) ∧
      A.arr_exp + 0 ≤ A.dep_fre ∧ B.arr_fre + 0 ≤ B.dep_exp ∧
      A.dep_exp = 622 ∧ B.dep_fre = 600 :=
  claim_C3_headway 40 110 40 622 600 0 3 1
    (by norm_num) (by norm_num) (by norm_num) (by norm_num) (by norm_num) (by norm_num)

/-- C4: for valid inputs the core cannot fail: `travel_time_minutes`
succeeds with value `60 * distance / speed` for each positive speed, and
`build_schedule` returns a result (no error branch is reachable). -/
theorem claim_C4_no_failure (d ve vf pe pf hw we wf : ℚ)
    (hd : 0 < d) (hve : 0 < ve) (hvf : 0 < vf) (hhw : 0 ≤ hw)
    (hwe : 0 < we) (hwf : 0 < wf) :
    travel_time_minutes d ve = some (60 * d / ve) ∧
    travel_time_minutes d vf = some (60 * d / vf) ∧
    (build_schedule d ve vf pe pf hw we wf).isSome = true := by
  refine ⟨?_, ?_, ?_⟩
  · simp [travel_time_minutes, hve.ne']
  · simp [travel_time_minutes, hvf.ne']
  · simp [build_schedule_some d ve vf pe pf hw we wf hve.ne' hvf.ne']

/-- Witness for C4 at the concrete valid input of the spec's Scenario 1. -/
theorem claim_C4_witness :
    travel_time_minutes 40 110 = some (60 * 40 / 110) ∧
    travel_time_minutes 40 40 = some (60 * 40 / 40) ∧
    (build_schedule 40 110 40 622 600 3 3 1).isSome = true :=
  claim_C4_no_failure 40 110 40 622 600 3 3 1
    (by norm_num) (by norm_num) (by norm_num) (by norm_num) (by norm_num) (by norm_num)

/-- C6: for every valid input, in both generated plans the delay of each
of the two trains is nonnegative. -/
theorem claim_C6_nonneg_delay (d ve vf pe pf hw we wf : ℚ)
    (hd : 0 < d) (hve : 0 < ve) (hvf : 0 < vf) (hhw : 0 ≤ hw)
    (hwe : 0 < we) (hwf : 0 < wf) :
    ∃ best A B te tf,
      build_schedule d ve vf pe pf hw we wf = some (best, A, B, (te, tf)) ∧
      0 ≤ A.delay_exp ∧ 0 ≤ A.delay_fre ∧ 0 ≤ B.delay_exp ∧ 0 ≤ B.delay_fre := by
  refine ⟨_, _, _, _, _, build_schedule_some d ve vf pe pf hw we wf hve.ne' hvf.ne',
    ?_, ?_, ?_, ?_⟩ <;> simp [planA_of, planB_of]

/-- Witness for C6 at the concrete valid input of the spec's Scenario 1. -/
theorem claim_C6_witness :
    ∃ best A B te tf,
      build_schedule 40 110 40 622 600 3 3 1 = some (best, A, B, (te, tf)) ∧
      0 ≤ A.delay_exp ∧ 0 ≤ A.delay_fre ∧ 0 ≤ B.delay_exp ∧ 0 ≤ B.delay_fre :=
  claim_C6_nonneg_delay 40 110 40 622 600 3 3 1
    (by norm_num) (by norm_num) (by norm_num) (by norm_num) (by norm_num) (by norm_num)

/-- C10: the two priority weights are optional with defaults 3.0 (express)
and 1.0 (freight): calling `build_schedule` without weight arguments gives
the same output as calling it with weights (3, 1), for all inputs. -/
theorem claim_C10_default_weights (d ve vf pe pf hw : ℚ) :
    build_schedule d ve vf pe pf hw = build_schedule d ve vf pe pf hw 3 1 :=
  rfl

/-! ## Scenario 1 (spec section 8) -/

lemma build_schedule_scenario1 :
    build_schedule 40 110 40 622 600 3 3 1 =
      some (scenario1A, scenario1A, scenario1B, (240/11, 60)) := by
  rw [build_schedule_some 40 110 40 622 600 3 3 1 (by norm_num) (by norm_num)]
  have hA : planA_of 40 110 40 622 600 3 3 1 = scenario1A := by
    simp only [planA_of, scenario1A]
    norm_num [max_eq_right, max_eq_left]
  have hB : planB_of 40 110 40 622 600 3 3 1 = scenario1B := by
    simp only [planB_of, scenario1B]
    norm_num [max_eq_right, max_eq_left]
  rw [hA, hB]
  have hsel : selectBest scenario1A scenario1B = scenario1A := by
    rw [selectBest, if_pos (by norm_num [scenario1A, scenario1B])]
  rw [hsel]
  norm_num

/-- C5 counterexample: on Scenario 1 the computed express travel time is
exactly 240/11 minutes, which is not the claimed 21.82; the claim's
decimal figures are true only after rounding to two decimal places. -/
theorem claim_C5_counterexample :
    build_schedule 40 110 40 622 600 3 3 1 =
      some (scenario1A, scenario1A, scenario1B, (240/11, 60)) ∧
    (240/11 : ℚ) ≠ 2182/100 := by
  exact ⟨build_schedule_scenario1, by norm_num⟩

/-- C5 (amended): on Scenario 1 the generator produces exactly the values
of the claim with all repeating decimals read as exact rationals
(express travel time 240/11 ≈ 21.82, freight travel time 60; Plan A:
depExp = 622, arrExp = 7082/11 ≈ 643.82, depFre = 7115/11 ≈ 646.82,
arrFre = 7775/11 ≈ 706.82, delayFre = score = 515/11 ≈ 46.82; Plan B:
depFre = 600, arrFre = 660, depExp = 663, delayExp = 41, score = 123), each
`≈` being rounding to two decimal places, and Plan A is selected. -/
theorem claim_C5_scenario1_amended :
    build_schedule 40 110 40 622 600 3 3 1 =
      some (scenario1A, scenario1A, scenario1B, (240/11, 60)) ∧
    pyRound (100 * (240/11 : ℚ)) = 2182 ∧
    pyRound (100 * (7082/11 : ℚ)) = 64382 ∧
    pyRound (100 * (7115/11 : ℚ)) = 64682 ∧
    pyRound (100 * (7775/11 : ℚ)) = 70682 ∧
    pyRound (100 * (515/11 : ℚ)) = 4682 ∧
    selectBest scenario1A scenario1B = scenario1A := by
  refine ⟨build_schedule_scenario1, ?_, ?_, ?_, ?_, ?_, ?_⟩
  · rw [pyRound]
    norm_num [Int.floor_eq_iff]
  · rw [pyRound]
    norm_num [Int.floor_eq_iff]
  · rw [pyRound]
    norm_num [Int.floor_eq_iff]
  · rw [pyRound]
    norm_num [Int.floor_eq_iff]
  · rw [pyRound]
    norm_num [Int.floor_eq_iff]
  · rw [selectBest, if_pos (by norm_num [scenario1A, scenario1B])]

/-! ## Clock formatting and parsing claims -/

lemma pyRound_intCast (n : ℤ) : pyRound (n : ℚ) = n := by
  simp [pyRound]

lemma pyRound_natCast (n : ℕ) : pyRound (n : ℚ) = n := by
  exact_mod_cast pyRound_intCast (n : ℤ)

lemma minutes_to_hhmm_natCast (m : ℕ) :
    minutes_to_hhmm (m : ℚ) =
      fmt02d ((((m : ℤ).fdiv 60).fmod 24).toNat) ++ ':' :: fmt02d (((m : ℤ).fmod 60).toNat) := by
  simp only [minutes_to_hhmm, pyRound_natCast]

set_option maxRecDepth 2000 in
lemma roundtrip_key : ∀ h : ℕ, h < 24 → ∀ mm : ℕ, mm < 60 →
    hhmm_to_minutes (fmt02d h ++ ':' :: fmt02d mm) = some ((h * 60 + mm : ℕ) : ℤ) := by
  decide

/-- C7: for every integer minute m in [0, 1439], parsing the clock string
produced by formatting m gives back m:
`hhmm_to_minutes (minutes_to_hhmm m) = some m`. -/
theorem claim_C7_roundtrip (m : ℕ) (hm : m < 1440) :
    hhmm_to_minutes (minutes_to_hhmm (m : ℚ)) = some (m : ℤ) := by
  rw [minutes_to_hhmm_natCast]
  have h1 : (((m : ℤ).fdiv 60).fmod 24).toNat = m / 60 % 24 := by
    rw [show (60 : ℤ) = ((60 : ℕ) : ℤ) from rfl, ← Int.ofNat_fdiv,
      show (24 : ℤ) = ((24 : ℕ) : ℤ) from rfl, ← Int.ofNat_fmod, Int.toNat_natCast]
  have h2 : ((m : ℤ).fmod 60).toNat = m % 60 := by
    rw [show (60 : ℤ) = ((60 : ℕ) : ℤ) from rfl, ← Int.ofNat_fmod, Int.toNat_natCast]
  rw [h1, h2, Nat.mod_eq_of_lt (by omega : m / 60 < 24),
    roundtrip_key (m / 60) (by omega) (m % 60) (by omega),
    show m / 60 * 60 + m % 60 = m by omega]

/-- Witness for C7 at minute 622 (10:22). -/
theorem claim_C7_witness :
    hhmm_to_minutes (minutes_to_hhmm ((622 : ℕ) : ℚ)) = some ((622 : ℕ) : ℤ) :=
  claim_C7_roundtrip 622 (by norm_num)

lemma pyRound_nearest (q : ℚ) (z : ℤ) : |(pyRound q : ℚ) - q| ≤ |(z : ℚ) - q| := by
  have hfl : (⌊q⌋ : ℚ) ≤ q := Int.floor_le q
  have hfu : q < ⌊q⌋ + 1 := Int.lt_floor_add_one q
  have hz : (z : ℚ) ≤ (⌊q⌋ : ℚ) ∨ (⌊q⌋ : ℚ) + 1 ≤ (z : ℚ) := by
    rcases le_or_lt z ⌊q⌋ with h | h
    · left; exact_mod_cast h
    · right; exact_mod_cast h
  have hz1 : (z : ℚ) - q ≤ |(z : ℚ) - q| := le_abs_self _
  have hz2 : q - (z : ℚ) ≤ |(z : ℚ) - q| := by rw [abs_sub_comm]; exact le_abs_self _
  simp only [pyRound]
  split_ifs with h1 h2 h3 <;>
    (rw [abs_le]; constructor <;> rcases hz with hz | hz <;> push_cast <;> linarith)

/-- C8: `minutes_to_hhmm` first rounds its argument to a nearest integer
(round, not truncate: no integer is strictly closer than the one chosen)
and then formats it as two two-digit fields separated by a colon, with the
hour wrapped modulo 24. -/
theorem claim_C8_format_rounds (m : ℚ) :
    minutes_to_hhmm m =
      fmt02d ((((pyRound m).fdiv 60).fmod 24).toNat) ++ ':' ::
        fmt02d (((pyRound m).fmod 60).toNat) ∧
    ∀ z : ℤ, |(pyRound m : ℚ) - m| ≤ |(z : ℚ) - m| :=
  ⟨rfl, fun z => pyRound_nearest m z⟩

/-- C9: `hhmm_to_minutes` fails exactly when the input does not split on
":" into exactly two parts that are both valid Python integers; when it
splits into valid integers h and m it returns `h * 60 + m` with no range
check on h or m. -/
theorem claim_C9_parse (s : List Char) :
    (∀ a b h m, splitOnColon s = [a, b] → pyInt a = some h → pyInt b = some m →
      hhmm_to_minutes s = some (h * 60 + m)) ∧
    (hhmm_to_minutes s = none ↔
      ¬ ∃ a b, splitOnColon s = [a, b] ∧ (pyInt a).isSome ∧ (pyInt b).isSome) := by
  constructor
  · intro a b h m hsplit ha hb
    simp [hhmm_to_minutes, hsplit, ha, hb]
  · rcases hsp : splitOnColon s with _ | ⟨a, _ | ⟨b, _ | ⟨c, rest⟩⟩⟩
    · simp [hhmm_to_minutes, hsp]
    · simp [hhmm_to_minutes, hsp]
    · cases hpa : pyInt a <;> cases hpb : pyInt b <;>
        simp [hhmm_to_minutes, hsp, hpa, hpb]
    · simp [hhmm_to_minutes, hsp]

/-- Witness for C9: "99:99" parses to 6039 minutes (no range check). -/
theorem claim_C9_witness :
    hhmm_to_minutes ['9', '9', ':', '9', '9'] = some 6039 :=
  (claim_C9_parse ['9', '9', ':', '9', '9']).1 ['9', '9'] ['9', '9'] 99 99
    (by decide) (by decide) (by decide)

end RailApp
